import Mathlib

/-
Shallow embedding of the energy-analysis pipeline
(src/data_fetcher.py and src/data_processor.py).

Machine state that is pure data (lists of records, counters, backoff
delays) is modelled directly; network I/O is modelled by an abstract
trace of per-attempt outcomes (`NetEvent`), one event per call to
`requests.get` for a given city.  Python exceptions are modelled by an
explicit `Except` layer: the body of each retry loop may raise a
`PyExn`, and the translated `except` chains decide whether the
exception is retried, swallowed, or propagated.  Sleeping
(`time.sleep(backoff)`) is recorded as the list of slept durations.
File persistence (`to_csv`, `json.dump`) and logging are side effects
outside the data model and are omitted.
-/

/- Exception classes distinguished by the `except` chains of
data_fetcher.py: requests.exceptions.Timeout,
requests.exceptions.ConnectionError, requests.exceptions.HTTPError
(raised by `response.raise_for_status()`), and any other exception. -/
inductive PyExn where
  | timeout
  | connError
  | httpError (status : Nat)
  | other
deriving DecidableEq, Repr

/- Outcome of one `requests.get` call: either the call itself raises,
or it returns a response with a status code and a parsed body. -/
inductive NetEvent (α : Type) where
  | netRaise (ex : PyExn)
  | resp (status : Nat) (body : α)
deriving DecidableEq, Repr

/- Result of running the `try` body up to the point where the loop
either continues (HTTP 429 rate-limit branch) or breaks with the
records appended for this city. -/
inductive TryOut (β : Type) where
  | rateLimited
  | gotRecords (rows : List β)
deriving DecidableEq, Repr

/- What an `except` clause does with a caught exception: retry the
loop (after sleeping) or break out of it. -/
inductive LoopAct where
  | retry
  | halt
deriving DecidableEq, Repr

/- Result of the retry loop of one city: the rows appended to `all_data`,
the number of attempts consumed, the backoff durations slept, and
whether the loop exhausted its budget (the `for ... else` branch in
fetch_noaa_weather, or `retries == 0` in fetch_eia_energy). -/
structure LoopRes (β : Type) where
  rows : List β
  attempts : Nat
  sleeps : List ℚ
  exhausted : Bool
deriving DecidableEq, Repr

/- The shared shape of both per-city retry loops in data_fetcher.py:
`fuel` is the remaining attempt budget, `used` the attempts consumed
so far (also the index into the event trace), `backoff` the current
delay.  On a 429 response the loop sleeps, doubles the delay and
consumes an attempt; on an exception the translated `except` chain
(`handler`) either retries the same way, breaks with no rows, or (if
no clause matches) propagates the exception. -/
def retryLoopE {β : Type} (tryF : Nat → Except PyExn (TryOut β))
    (handler : PyExn → Option LoopAct) :
    Nat → Nat → ℚ → Except PyExn (LoopRes β)
  | 0, used, _ => Except.ok ⟨[], used, [], true⟩
  | fuel + 1, used, backoff =>
    match tryF used with
    | Except.ok (TryOut.gotRecords rows) => Except.ok ⟨rows, used + 1, [], false⟩
    | Except.ok TryOut.rateLimited =>
        Except.map (fun r => { r with sleeps := backoff :: r.sleeps })
          (retryLoopE tryF handler fuel (used + 1) (backoff * 2))
    | Except.error ex =>
        match handler ex with
        | some LoopAct.retry =>
            Except.map (fun r => { r with sleeps := backoff :: r.sleeps })
              (retryLoopE tryF handler fuel (used + 1) (backoff * 2))
        | some LoopAct.halt => Except.ok ⟨[], used + 1, [], false⟩
        | none => Except.error ex

/- Attempt `i` of the loop is one that triggers a retry: either the
rate-limit branch or an exception whose handler clause retries. -/
def retriesAt {β : Type} (tryF : Nat → Except PyExn (TryOut β))
    (handler : PyExn → Option LoopAct) (i : Nat) : Prop :=
  tryF i = Except.ok TryOut.rateLimited ∨
    ∃ ex, tryF i = Except.error ex ∧ handler ex = some LoopAct.retry

/- One raw NOAA reading as returned in response.json()["results"]:
a date string, a datatype string ("TMAX", "TMIN", ...) and a value in
tenths of a degree Celsius (the API is queried with units=metric and
the code divides by 10). -/
structure NoaaRec where
  date : String
  datatype : String
  value : ℚ
deriving DecidableEq, Repr

/- One element of `all_data` in fetch_noaa_weather: city, the first 10
characters of the date, the datatype, and value / 10. -/
structure FlatRow where
  city : String
  date : String
  datatype : String
  value : ℚ
deriving DecidableEq, Repr

/- The per-record loop of fetch_noaa_weather: keep only TMAX/TMIN
readings and append {city, date[:10], datatype, value / 10}. -/
def noaaProcess (city : String) (records : List NoaaRec) : List FlatRow :=
  (records.filter (fun r => r.datatype == "TMAX" || r.datatype == "TMIN")).map
    (fun r => ⟨city, r.date.take 10, r.datatype, r.value / 10⟩)

/- The `try` body of fetch_noaa_weather for one attempt: a raised
network exception propagates to the except chain; a 429 response takes
the rate-limit branch; `response.raise_for_status()` raises HTTPError
for any other status >= 400; otherwise the records are processed and
the loop breaks.  (An empty record list also breaks, contributing no
rows, which coincides with gotRecords [].) -/
def noaaTry (city : String) (e : NetEvent (List NoaaRec)) : Except PyExn (TryOut FlatRow) :=
  match e with
  | NetEvent.netRaise ex => Except.error ex
  | NetEvent.resp status body =>
    if status = 429 then Except.ok TryOut.rateLimited
    else if 400 ≤ status then Except.error (PyExn.httpError status)
    else Except.ok (TryOut.gotRecords (noaaProcess city body))

/- The except chain of fetch_noaa_weather:
except (Timeout, ConnectionError): sleep and retry;
except HTTPError: break; except Exception: break.
Every exception class is caught, so no branch maps to `none`. -/
def noaaHandler : PyExn → Option LoopAct
  | PyExn.timeout => some LoopAct.retry
  | PyExn.connError => some LoopAct.retry
  | PyExn.httpError _ => some LoopAct.halt
  | PyExn.other => some LoopAct.halt

def noaaTryF (city : String) (ev : Nat → NetEvent (List NoaaRec)) (i : Nat) :
    Except PyExn (TryOut FlatRow) :=
  noaaTry city (ev i)

/- The per-city retry loop of fetch_noaa_weather: retries = 5,
initial backoff = 3. -/
def fetchCityNoaa (city : String) (ev : Nat → NetEvent (List NoaaRec)) :
    Except PyExn (LoopRes FlatRow) :=
  retryLoopE (noaaTryF city ev) noaaHandler 5 0 3

/- One raw EIA record from response.json()["response"]["data"]: a
period string and the optional "value" / "sales" fields (None models
an absent or null field). -/
structure EiaRec where
  period : String
  value : Option ℚ
  sales : Option ℚ
deriving DecidableEq, Repr

/- One element of `all_data` in fetch_eia_energy (a row of the
returned energy table). -/
structure EnergyRow where
  city : String
  date : String
  energy_usage : Option ℚ
deriving DecidableEq, Repr

/- The per-record loop of fetch_eia_energy: every record is appended,
with period truncated to 10 characters and
value = r.get("value", r.get("sales")). -/
def eiaProcess (city : String) (records : List EiaRec) : List EnergyRow :=
  records.map (fun r => ⟨city, r.period.take 10, r.value.orElse (fun _ => r.sales)⟩)

/- The `try` body of fetch_eia_energy for one attempt. -/
def eiaTry (city : String) (e : NetEvent (List EiaRec)) : Except PyExn (TryOut EnergyRow) :=
  match e with
  | NetEvent.netRaise ex => Except.error ex
  | NetEvent.resp status body =>
    if status = 429 then Except.ok TryOut.rateLimited
    else if 400 ≤ status then Except.error (PyExn.httpError status)
    else Except.ok (TryOut.gotRecords (eiaProcess city body))

/- The except chain of fetch_eia_energy is a single
`except Exception: break`: every exception class halts the loop. -/
def eiaHandler : PyExn → Option LoopAct
  | _ => some LoopAct.halt

def eiaTryF (city : String) (ev : Nat → NetEvent (List EiaRec)) (i : Nat) :
    Except PyExn (TryOut EnergyRow) :=
  eiaTry city (ev i)

/- The per-city retry loop of fetch_eia_energy: retries = 5, initial
backoff = 1; the budget is decremented only on the 429 branch, but
every other branch leaves the loop, which the shared loop shape
reproduces because only the 429 branch recurses. -/
def fetchCityEia (city : String) (ev : Nat → NetEvent (List EiaRec)) :
    Except PyExn (LoopRes EnergyRow) :=
  retryLoopE (eiaTryF city ev) eiaHandler 5 0 1

/- A transient-network-class attempt outcome for the NOAA client:
Timeout, ConnectionError, or an HTTP 429 response. -/
def transientNoaa (e : NetEvent (List NoaaRec)) : Prop :=
  e = NetEvent.netRaise PyExn.timeout ∨ e = NetEvent.netRaise PyExn.connError ∨
    ∃ body, e = NetEvent.resp 429 body

/- Insertion sort with a boolean order, used to model the sorted group
keys produced by pandas pivot_table / groupby (sort=True is the pandas
default for both). -/
def insertLe {α : Type} (le : α → α → Bool) (x : α) : List α → List α
  | [] => [x]
  | y :: ys => if le x y then x :: y :: ys else y :: insertLe le x ys

def sortLe {α : Type} (le : α → α → Bool) : List α → List α
  | [] => []
  | x :: xs => insertLe le x (sortLe le xs)

/- Code-point comparison of strings, the order pandas uses to sort
string keys. -/
def charListLe : List Char → List Char → Bool
  | [], _ => true
  | _ :: _, [] => false
  | a :: as, b :: bs =>
    if a.toNat < b.toNat then true
    else if b.toNat < a.toNat then false
    else charListLe as bs

def strLe (a b : String) : Bool :=
  charListLe a.data b.data

/- Lexicographic (city, date) order on the pivot index of
fetch_noaa_weather (both components are strings). -/
def wkeyLe (a b : String × String) : Bool :=
  if a.1 = b.1 then strLe a.2 b.2
  else strLe a.1 b.1

/- numpy rounding (round half to even), applied by `.round(2)` after
the unit conversion; modelled exactly on rationals. -/
def halfEvenRound (q : ℚ) : ℤ :=
  let f : ℤ := q.floor
  if q - f < 1 / 2 then f
  else if (1 : ℚ) / 2 < q - f then f + 1
  else if f % 2 = 0 then f else f + 1

def round2 (q : ℚ) : ℚ :=
  (halfEvenRound (q * 100) : ℚ) / 100

/- aggfunc="first" of pivot_table: the first value (in the original
row order of `all_data`) for the given (city, date, datatype); values
here are never NaN, so "first non-null" is just "first". -/
def firstVal (flat : List FlatRow) (c d dt : String) : Option ℚ :=
  (flat.find? (fun r => r.city == c && r.date == d && r.datatype == dt)).map
    (fun r => r.value)

/- One row of the pivoted weather table.  A missing TMAX (resp. TMIN)
reading for the key leaves NaN in the pivoted cell, modelled as
`none`; when no reading of that datatype exists at all, pandas omits
the column entirely, which carries the same information as a column of
`none`s.  The dead `Avg_temp` branch of the code (the pivot can only
produce TMAX/TMIN columns) is not modelled. -/
structure PivotRow where
  city : String
  date : String
  TMAX_F : Option ℚ
  TMIN_F : Option ℚ
deriving DecidableEq, Repr

/- The pivot + unit conversion of fetch_noaa_weather (lines 96-103):
pivot_table on index (city, date), columns datatype, aggfunc "first"
(index sorted, pandas default), then
TMAX_F = (TMAX * 0.18 + 32).round(2) and the same for TMIN_F. -/
def weatherPivot (flat : List FlatRow) : List PivotRow :=
  let keys := sortLe wkeyLe ((flat.map (fun r => (r.city, r.date))).dedup)
  keys.map (fun k =>
    { city := k.1, date := k.2,
      TMAX_F := (firstVal flat k.1 k.2 "TMAX").map (fun v => round2 (v * 0.18 + 32)),
      TMIN_F := (firstVal flat k.1 k.2 "TMIN").map (fun v => round2 (v * 0.18 + 32)) })

/- The per-city loop of fetch_noaa_weather over the configured city
list, accumulating `all_data`; a Python exception escaping the loop of one city would propagate out of the whole fetch, which the Except monad
reproduces. -/
def fetchAllNoaa (ev : String → Nat → NetEvent (List NoaaRec)) :
    List String → Except PyExn (List FlatRow)
  | [] => Except.ok []
  | c :: cs => do
    let r ← fetchCityNoaa c (ev c)
    let rest ← fetchAllNoaa ev cs
    pure (r.rows ++ rest)

/- fetch_noaa_weather: fetch every city, then pivot `all_data`.  (The
empty-DataFrame early return yields an empty table, which equals the
pivot of an empty list; CSV saving is I/O and omitted.) -/
def fetch_noaa_weather (cities : List String)
    (ev : String → Nat → NetEvent (List NoaaRec)) : Except PyExn (List PivotRow) :=
  Except.map weatherPivot (fetchAllNoaa ev cities)

def fetchAllEia (ev : String → Nat → NetEvent (List EiaRec)) :
    List String → Except PyExn (List EnergyRow)
  | [] => Except.ok []
  | c :: cs => do
    let r ← fetchCityEia c (ev c)
    let rest ← fetchAllEia ev cs
    pure (r.rows ++ rest)

/- fetch_eia_energy: fetch every city and return `all_data` as the
energy table (the dataframe keeps the append order; the column
reordering before to_csv does not change the rows).  The Houston
routing picks a different endpoint and parameter shape, which only
affects which trace of responses the city sees, not the control
flow modelled here. -/
def fetch_eia_energy (cities : List String)
    (ev : String → Nat → NetEvent (List EiaRec)) : Except PyExn (List EnergyRow) :=
  fetchAllEia ev cities

/- A row of the raw weather table loaded by DataProcessor
(columns city, date, temp_high_c, temp_low_c).  Dates are modelled as
UTC epoch seconds (pd.to_datetime timestamps); a NaN cell is `none`. -/
structure WRow where
  city : String
  date : ℤ
  temp_high_c : Option ℚ
  temp_low_c : Option ℚ
deriving DecidableEq, Repr

/- A row of the raw energy table loaded by DataProcessor
(columns city, date, energy_consumption_mwh). -/
structure ERow where
  city : String
  date : ℤ
  energy_consumption_mwh : Option ℚ
deriving DecidableEq, Repr

/- A row of the merged table right after
pd.merge(weather_df, energy_df, on=["city", "date"], how="inner"). -/
structure MRow where
  city : String
  date : ℤ
  temp_high_c : Option ℚ
  temp_low_c : Option ℚ
  energy_consumption_mwh : Option ℚ
deriving DecidableEq, Repr

/- A merged row after the temp_avg_c column is added. -/
structure MRowF where
  city : String
  date : ℤ
  temp_high_c : Option ℚ
  temp_low_c : Option ℚ
  energy_consumption_mwh : Option ℚ
  temp_avg_c : Option ℚ
deriving DecidableEq, Repr

/- The data_quality thresholds read from config, with the defaults
hard-coded in _check_outliers: temp_celsius max 55, min -45, and
energy_mwh min 0. -/
structure QualityParams where
  temp_max : ℚ
  temp_min : ℚ
  energy_min : ℚ
deriving DecidableEq, Repr

def defaultQualityParams : QualityParams :=
  ⟨55, -45, 0⟩

/- The missing_values_<name> section of the quality report:
emptyError models summary["error"] = "DataFrame is empty.", and counts
holds column -> int(missing_count) for the columns with at least one
null. -/
structure MissingSummary where
  emptyError : Bool
  counts : List (String × Nat)
deriving DecidableEq, Repr

def check_missing_values {α : Type} (df : List α)
    (columns : List (String × (α → Option ℚ))) : MissingSummary :=
  if df.isEmpty then ⟨true, []⟩
  else
    ⟨false,
      columns.filterMap (fun col =>
        let missing_count := df.countP (fun r => (col.2 r).isNone)
        if 0 < missing_count then some (col.1, missing_count) else none)⟩

/- The outliers section: each key is present exactly when the
corresponding dataframe is non-empty and the flagged subset is
non-empty. -/
structure OutlierSummary where
  temperature_outliers_found : Option Nat
  energy_outliers_found : Option Nat
deriving DecidableEq, Repr

/- The row filter weather_df[(weather_df["temp_high_c"] > max_temp) |
(weather_df["temp_low_c"] < min_temp)]; a NaN comparison is False. -/
def tempOutlierRow (qp : QualityParams) (r : WRow) : Bool :=
  (r.temp_high_c.any (fun v => qp.temp_max < v)) ||
    (r.temp_low_c.any (fun v => v < qp.temp_min))

/- The row filter energy_df[energy_df["energy_consumption_mwh"] <
min_energy]. -/
def energyOutlierRow (qp : QualityParams) (r : ERow) : Bool :=
  r.energy_consumption_mwh.any (fun v => v < qp.energy_min)

def check_outliers (qp : QualityParams) (weather_df : List WRow)
    (energy_df : List ERow) : OutlierSummary :=
  { temperature_outliers_found :=
      if weather_df.isEmpty then none
      else
        let temp_outliers := weather_df.filter (tempOutlierRow qp)
        if temp_outliers.isEmpty then none else some temp_outliers.length,
    energy_outliers_found :=
      if energy_df.isEmpty then none
      else
        let energy_outliers := energy_df.filter (energyOutlierRow qp)
        if energy_outliers.isEmpty then none else some energy_outliers.length }

/- The freshness_<name> section.  `error` models both error strings of the code (empty frame / missing or unparsable date column); `ok`
carries latest_date_found, days_since_latest_date and is_stale.
(now - latest).days on timedelta is floor division of the elapsed
seconds by 86400, i.e. Int.fdiv. -/
inductive FreshSummary where
  | error
  | ok (latest_date_found : ℤ) (days_since_latest_date : ℤ) (is_stale : Bool)
deriving DecidableEq, Repr

def check_data_freshness (now : ℤ) (dates : List ℤ) (max_days_old : ℤ) : FreshSummary :=
  match dates with
  | [] => FreshSummary.error
  | d :: ds =>
    let latest_date := ds.foldl max d
    let days_diff := (now - latest_date).fdiv 86400
    FreshSummary.ok latest_date days_diff (days_diff > max_days_old)

/- (city, normalized date) order for the sorted groupby keys of the
energy aggregation. -/
def ekeyLe (a b : String × ℤ) : Bool :=
  if a.1 = b.1 then a.2 ≤ b.2
  else strLe a.1 b.1

/- pd.to_datetime(...).dt.normalize(): truncate a timestamp to
midnight of its UTC day. -/
def normalizeDate (t : ℤ) : ℤ :=
  86400 * t.fdiv 86400

/- The energy cleaning step of process_and_validate: normalize dates
to days, then groupby(["city", "date"]).agg(sum) (pandas sum skips
NaN and returns 0 for an all-NaN group, so the aggregated column has
no nulls; groupby sorts the keys). -/
def aggregateEnergy (rows : List ERow) : List ERow :=
  let norm := rows.map (fun r => { r with date := normalizeDate r.date })
  let keys := sortLe ekeyLe ((norm.map (fun r => (r.city, r.date))).dedup)
  keys.map (fun k =>
    ⟨k.1, k.2,
      some (((norm.filter (fun r => r.city == k.1 && r.date == k.2)).filterMap
        (fun r => r.energy_consumption_mwh)).foldl (· + ·) 0)⟩)

/- pd.merge(weather_df, energy_df, on=["city", "date"], how="inner"):
for each left (weather) row in order, the matching right (energy) rows
in order; the output keeps the key order of the left frame and is not
re-sorted. -/
def innerMerge (weather_df : List WRow) (energy_df : List ERow) : List MRow :=
  weather_df.bind (fun wr =>
    (energy_df.filter (fun er => wr.city == er.city && wr.date == er.date)).map
      (fun er => ⟨wr.city, wr.date, wr.temp_high_c, wr.temp_low_c,
        er.energy_consumption_mwh⟩))

/- merged_df["temp_avg_c"] = (temp_high_c + temp_low_c) / 2, with NaN
propagation when either operand is missing. -/
def addTempAvg (m : MRow) : MRowF :=
  { city := m.city, date := m.date, temp_high_c := m.temp_high_c,
    temp_low_c := m.temp_low_c,
    energy_consumption_mwh := m.energy_consumption_mwh,
    temp_avg_c :=
      match m.temp_high_c, m.temp_low_c with
      | some h, some l => some ((h + l) / 2)
      | _, _ => none }

structure QualityReport where
  missing_values_weather : MissingSummary
  missing_values_energy : MissingSummary
  outliers : OutlierSummary
  freshness_weather : FreshSummary
  freshness_energy : FreshSummary
deriving DecidableEq, Repr

/- The five quality checks of process_and_validate, run on the
pre-merge per-source tables (weather as loaded, energy after daily
aggregation), with the column lists and default staleness threshold
(3) used at the call sites. -/
def mkQualityReport (now : ℤ) (qp : QualityParams) (weather_df : List WRow)
    (energy_df : List ERow) : QualityReport :=
  { missing_values_weather :=
      check_missing_values weather_df
        [("temp_high_c", WRow.temp_high_c), ("temp_low_c", WRow.temp_low_c)],
    missing_values_energy :=
      check_missing_values energy_df
        [("energy_consumption_mwh", ERow.energy_consumption_mwh)],
    outliers := check_outliers qp weather_df energy_df,
    freshness_weather := check_data_freshness now (weather_df.map WRow.date) 3,
    freshness_energy := check_data_freshness now (energy_df.map ERow.date) 3 }

/- DataProcessor.process_and_validate on already-loaded tables (file
loading and persistence are I/O and omitted): clean/aggregate energy,
run all quality checks, then merge; returns the report plus the merged
dataframe, `none` standing for the early returns when a source table
or the join is empty. -/
def process_and_validate (now : ℤ) (qp : QualityParams) (weather_df : List WRow)
    (energy_df0 : List ERow) : QualityReport × Option (List MRowF) :=
  let energy_df := aggregateEnergy energy_df0
  let report := mkQualityReport now qp weather_df energy_df
  if weather_df.isEmpty ∨ energy_df.isEmpty then (report, none)
  else
    let merged_df := innerMerge weather_df energy_df
    if merged_df.isEmpty then (report, none)
    else (report, some (merged_df.map addTempAvg))

/- Spec-side definition, for comparison with tempOutlierRow (which is
translated from the code): following the words of the spec, a weather
record is an outlier when a temperature recorded on it (its high or
its low bound) lies outside the configured [temp_min, temp_max]
range. -/
def specTempOutlier (qp : QualityParams) (r : WRow) : Bool :=
  (r.temp_high_c.any (fun t => t < qp.temp_min || qp.temp_max < t)) ||
    (r.temp_low_c.any (fun t => t < qp.temp_min || qp.temp_max < t))

/- Concrete data used by the closed witness / counterexample
theorems. -/
def evC2bad : Nat → NetEvent (List EiaRec) := fun i =>
  if i < 2 then NetEvent.netRaise PyExn.timeout
  else NetEvent.resp 200 [⟨"2025-01-01", some 100, none⟩]

def recsC2 : List NoaaRec :=
  [⟨"2025-01-05T00:00:00", "TMAX", 100⟩]

def evC2good : Nat → NetEvent (List NoaaRec) := fun i =>
  if i < 2 then NetEvent.netRaise PyExn.timeout
  else NetEvent.resp 200 recsC2

def recsC4 : List NoaaRec :=
  [⟨"2025-01-01T00:00:00", "TMAX", 500⟩,
   ⟨"2025-01-01T00:00:00", "TMIN", 100⟩,
   ⟨"2025-01-02T00:00:00", "TMAX", 300⟩]

def evC4 : String → Nat → NetEvent (List NoaaRec) := fun _ _ =>
  NetEvent.resp 200 recsC4

def flatC4 : List FlatRow :=
  [⟨"A", "2025-01-01", "TMAX", 50⟩,
   ⟨"A", "2025-01-01", "TMIN", 10⟩,
   ⟨"A", "2025-01-02", "TMAX", 30⟩]

def evC9 : String → Nat → NetEvent (List EiaRec) := fun _ _ =>
  NetEvent.resp 200 [⟨"2025-01-03", none, none⟩]

def evC10 : Nat → NetEvent (List NoaaRec) := fun i =>
  if i = 0 then NetEvent.netRaise PyExn.timeout
  else NetEvent.resp 500 []

def wrB : WRow := ⟨"B", 0, some 1, some 0⟩

def wrA : WRow := ⟨"A", 0, some 2, some 1⟩

def erA : ERow := ⟨"A", 0, some 5⟩

def erB : ERow := ⟨"B", 0, some 6⟩

def wC7 : List WRow :=
  [⟨"A", 0, some 60, some 20⟩, ⟨"A", 86400, some 40, some 20⟩]

def eC7 : List ERow := [⟨"A", 0, some (-5)⟩]

/- A weather row of the shape the pipeline itself produces for a date
with only one reading (the high bound missing, cf. the C4 theorems):
its recorded temperature 60 lies outside the default range. -/
def wrC7bad : WRow := ⟨"A", 0, none, some 60⟩

def wC5 : List WRow := [⟨"A", 0, some 10, some 4⟩]

def eC5 : List ERow := [⟨"A", 0, some 100⟩]

def mC5 : MRowF := ⟨"A", 0, some 10, some 4, some 100, some 7⟩

deriving instance DecidableEq for Except

lemma exceptMap_map {ε α β γ : Type} (f : β → γ) (g : α → β) (x : Except ε α) :
    Except.map f (Except.map g x) = Except.map (f ∘ g) x := by
  cases x <;> rfl

lemma geomSleeps_fun (b : ℚ) (k : Nat) :
    (List.range k).map ((fun i => b * 2 ^ i) ∘ Nat.succ) =
      (List.range k).map (fun i => b * 2 * 2 ^ i) := by
  apply List.map_congr_left
  intro i _
  show b * 2 ^ (i + 1) = b * 2 * 2 ^ i
  rw [pow_succ]
  ring

lemma geomSleeps (b : ℚ) (k : Nat) :
    (List.range (k + 1)).map (fun i => b * 2 ^ i) =
      b :: (List.range k).map (fun i => b * 2 * 2 ^ i) := by
  rw [List.range_succ_eq_map, List.map_cons, List.map_map]
  rw [geomSleeps_fun]
  simp

lemma retryLoopE_skip {β : Type} (tryF : Nat → Except PyExn (TryOut β))
    (handler : PyExn → Option LoopAct) :
    ∀ (k fuel used : Nat) (b : ℚ), k ≤ fuel →
    (∀ i, i < k → retriesAt tryF handler (used + i)) →
    retryLoopE tryF handler fuel used b =
      Except.map
        (fun r => { r with sleeps := (List.range k).map (fun i => b * 2 ^ i) ++ r.sleeps })
        (retryLoopE tryF handler (fuel - k) (used + k) (b * 2 ^ k)) := by
  intro k
  induction k with
  | zero =>
    intro fuel used b _ _
    simp only [List.range_zero, List.map_nil, List.nil_append, pow_zero, mul_one,
      Nat.sub_zero, Nat.add_zero]
    cases retryLoopE tryF handler fuel used b <;> rfl
  | succ k ih =>
    intro fuel used b hk hr
    cases fuel with
    | zero => omega
    | succ f =>
      have h0 : retriesAt tryF handler used := by
        have := hr 0 (Nat.succ_pos k)
        simpa using this
      have hshift : ∀ i, i < k → retriesAt tryF handler (used + 1 + i) := by
        intro i hi
        have := hr (i + 1) (by omega)
        have heq : used + (i + 1) = used + 1 + i := by omega
        rwa [heq] at this
      have hk2 : k ≤ f := by omega
      rcases h0 with hrl | ⟨ex, hex, hact⟩
      · simp only [retryLoopE, hrl]
        rw [ih f (used + 1) (b * 2) hk2 hshift, exceptMap_map]
        have hfuel : f - k = f + 1 - (k + 1) := by omega
        have hused : used + 1 + k = used + (k + 1) := by omega
        have hb : b * 2 * 2 ^ k = b * 2 ^ (k + 1) := by rw [pow_succ]; ring
        rw [hfuel, hused, hb]
        congr 1
        funext r
        simp only [Function.comp]
        congr 1
        rw [geomSleeps, List.cons_append]
      · simp only [retryLoopE, hex, hact]
        rw [ih f (used + 1) (b * 2) hk2 hshift, exceptMap_map]
        have hfuel : f - k = f + 1 - (k + 1) := by omega
        have hused : used + 1 + k = used + (k + 1) := by omega
        have hb : b * 2 * 2 ^ k = b * 2 ^ (k + 1) := by rw [pow_succ]; ring
        rw [hfuel, hused, hb]
        congr 1
        funext r
        simp only [Function.comp]
        congr 1
        rw [geomSleeps, List.cons_append]

lemma retryLoopE_success {β : Type} (tryF : Nat → Except PyExn (TryOut β))
    (handler : PyExn → Option LoopAct) (k fuel : Nat) (b : ℚ) (rows : List β)
    (hk : k < fuel) (hpre : ∀ i, i < k → retriesAt tryF handler i)
    (hsucc : tryF k = Except.ok (TryOut.gotRecords rows)) :
    retryLoopE tryF handler fuel 0 b =
      Except.ok ⟨rows, k + 1, (List.range k).map (fun i => b * 2 ^ i), false⟩ := by
  have hs := retryLoopE_skip tryF handler k fuel 0 b (Nat.le_of_lt hk)
    (by intro i hi; simpa using hpre i hi)
  rw [hs]
  have hf : ∃ m, fuel - k = m + 1 := ⟨fuel - k - 1, by omega⟩
  rcases hf with ⟨m, hm⟩
  rw [hm]
  simp only [retryLoopE, Nat.zero_add, hsucc]
  simp [Except.map]

lemma retryLoopE_halt {β : Type} (tryF : Nat → Except PyExn (TryOut β))
    (handler : PyExn → Option LoopAct) (k fuel : Nat) (b : ℚ) (ex : PyExn)
    (hk : k < fuel) (hpre : ∀ i, i < k → retriesAt tryF handler i)
    (hex : tryF k = Except.error ex) (hact : handler ex = some LoopAct.halt) :
    retryLoopE tryF handler fuel 0 b =
      Except.ok ⟨[], k + 1, (List.range k).map (fun i => b * 2 ^ i), false⟩ := by
  have hs := retryLoopE_skip tryF handler k fuel 0 b (Nat.le_of_lt hk)
    (by intro i hi; simpa using hpre i hi)
  rw [hs]
  have hf : ∃ m, fuel - k = m + 1 := ⟨fuel - k - 1, by omega⟩
  rcases hf with ⟨m, hm⟩
  rw [hm]
  simp only [retryLoopE, Nat.zero_add, hex, hact]
  simp [Except.map]

lemma retryLoopE_exhaust {β : Type} (tryF : Nat → Except PyExn (TryOut β))
    (handler : PyExn → Option LoopAct) (fuel : Nat) (b : ℚ)
    (hpre : ∀ i, i < fuel → retriesAt tryF handler i) :
    retryLoopE tryF handler fuel 0 b =
      Except.ok ⟨[], fuel, (List.range fuel).map (fun i => b * 2 ^ i), true⟩ := by
  have hs := retryLoopE_skip tryF handler fuel fuel 0 b (Nat.le_refl fuel)
    (by intro i hi; simpa using hpre i hi)
  rw [hs]
  simp [retryLoopE, Except.map]

lemma retryLoopE_total {β : Type} (tryF : Nat → Except PyExn (TryOut β))
    (handler : PyExn → Option LoopAct)
    (hh : ∀ ex, (handler ex).isSome) :
    ∀ (fuel used : Nat) (b : ℚ), ∃ r, retryLoopE tryF handler fuel used b = Except.ok r := by
  intro fuel
  induction fuel with
  | zero => intro used b; exact ⟨_, rfl⟩
  | succ f ih =>
    intro used b
    rcases htry : tryF used with ex | out
    · rcases hact : handler ex with _ | act
      · exact absurd (hh ex) (by rw [hact]; simp)
      · cases act with
        | retry =>
          rcases ih (used + 1) (b * 2) with ⟨r, hr⟩
          refine ⟨{ r with sleeps := b :: r.sleeps }, ?_⟩
          simp only [retryLoopE, htry, hact, hr]
          rfl
        | halt =>
          refine ⟨⟨[], used + 1, [], false⟩, ?_⟩
          simp only [retryLoopE, htry, hact]
    · cases out with
      | rateLimited =>
        rcases ih (used + 1) (b * 2) with ⟨r, hr⟩
        refine ⟨{ r with sleeps := b :: r.sleeps }, ?_⟩
        simp only [retryLoopE, htry, hr]
        rfl
      | gotRecords rows =>
        refine ⟨⟨rows, used + 1, [], false⟩, ?_⟩
        simp only [retryLoopE, htry]

lemma retryLoopE_rows_success {β : Type} (tryF : Nat → Except PyExn (TryOut β))
    (handler : PyExn → Option LoopAct) :
    ∀ (fuel used : Nat) (b : ℚ) (r : LoopRes β),
      retryLoopE tryF handler fuel used b = Except.ok r → r.rows ≠ [] →
      ∃ k, tryF k = Except.ok (TryOut.gotRecords r.rows) := by
  intro fuel
  induction fuel with
  | zero =>
    intro used b r hr hne
    simp only [retryLoopE, Except.ok.injEq] at hr
    rw [← hr] at hne
    simp at hne
  | succ f ih =>
    intro used b r hr hne
    rcases htry : tryF used with ex | out
    · rcases hact : handler ex with _ | act
      · simp only [retryLoopE, htry, hact] at hr
        simp at hr
      · cases act with
        | retry =>
          simp only [retryLoopE, htry, hact] at hr
          rcases hinner : retryLoopE tryF handler f (used + 1) (b * 2) with e2 | r2
          · rw [hinner] at hr; simp [Except.map] at hr
          · rw [hinner] at hr
            simp only [Except.map, Except.ok.injEq] at hr
            have hrows : r.rows = r2.rows := by rw [← hr]
            rw [hrows] at hne ⊢
            exact ih (used + 1) (b * 2) r2 hinner hne
        | halt =>
          simp only [retryLoopE, htry, hact, Except.ok.injEq] at hr
          rw [← hr] at hne
          simp at hne
    · cases out with
      | rateLimited =>
        simp only [retryLoopE, htry] at hr
        rcases hinner : retryLoopE tryF handler f (used + 1) (b * 2) with e2 | r2
        · rw [hinner] at hr; simp [Except.map] at hr
        · rw [hinner] at hr
          simp only [Except.map, Except.ok.injEq] at hr
          have hrows : r.rows = r2.rows := by rw [← hr]
          rw [hrows] at hne ⊢
          exact ih (used + 1) (b * 2) r2 hinner hne
      | gotRecords rows =>
        simp only [retryLoopE, htry, Except.ok.injEq] at hr
        have hrows : r.rows = rows := by rw [← hr]
        exact ⟨used, by rw [htry, hrows]⟩

lemma retryLoopE_retry_of_lt {β : Type} (tryF : Nat → Except PyExn (TryOut β))
    (handler : PyExn → Option LoopAct) :
    ∀ (fuel used : Nat) (b : ℚ) (r : LoopRes β),
      retryLoopE tryF handler fuel used b = Except.ok r →
      ∀ i, used ≤ i → i + 1 < r.attempts → retriesAt tryF handler i := by
  intro fuel
  induction fuel with
  | zero =>
    intro used b r hr i hi hlt
    simp only [retryLoopE, Except.ok.injEq] at hr
    rw [← hr] at hlt
    simp at hlt
    omega
  | succ f ih =>
    intro used b r hr i hi hlt
    rcases htry : tryF used with ex | out
    · rcases hact : handler ex with _ | act
      · simp only [retryLoopE, htry, hact] at hr
        simp at hr
      · cases act with
        | retry =>
          simp only [retryLoopE, htry, hact] at hr
          rcases hinner : retryLoopE tryF handler f (used + 1) (b * 2) with e2 | r2
          · rw [hinner] at hr; simp [Except.map] at hr
          · rw [hinner] at hr
            simp only [Except.map, Except.ok.injEq] at hr
            have hatt : r.attempts = r2.attempts := by rw [← hr]
            rcases Nat.eq_or_lt_of_le hi with heq | hgt
            · exact Or.inr ⟨ex, by rw [← heq, htry], hact⟩
            · exact ih (used + 1) (b * 2) r2 hinner i hgt (by omega)
        | halt =>
          simp only [retryLoopE, htry, hact, Except.ok.injEq] at hr
          rw [← hr] at hlt
          simp at hlt
          omega
    · cases out with
      | rateLimited =>
        simp only [retryLoopE, htry] at hr
        rcases hinner : retryLoopE tryF handler f (used + 1) (b * 2) with e2 | r2
        · rw [hinner] at hr; simp [Except.map] at hr
        · rw [hinner] at hr
          simp only [Except.map, Except.ok.injEq] at hr
          have hatt : r.attempts = r2.attempts := by rw [← hr]
          rcases Nat.eq_or_lt_of_le hi with heq | hgt
          · exact Or.inl (by rw [← heq, htry])
          · exact ih (used + 1) (b * 2) r2 hinner i hgt (by omega)
      | gotRecords rows =>
        simp only [retryLoopE, htry, Except.ok.injEq] at hr
        rw [← hr] at hlt
        simp at hlt
        omega

lemma retriesAt_noaa_iff (city : String) (ev : Nat → NetEvent (List NoaaRec)) (i : Nat) :
    retriesAt (noaaTryF city ev) noaaHandler i ↔ transientNoaa (ev i) := by
  unfold retriesAt noaaTryF noaaTry transientNoaa
  cases hev : ev i with
  | netRaise ex =>
    cases ex <;> simp [noaaHandler]
  | resp status body =>
    by_cases h429 : status = 429
    · subst h429
      simp
    · by_cases h400 : 400 ≤ status
      · simp [h429, h400, noaaHandler]
      · simp [h429, h400, noaaHandler]

lemma retriesAt_eia_iff (city : String) (ev : Nat → NetEvent (List EiaRec)) (i : Nat) :
    retriesAt (eiaTryF city ev) eiaHandler i ↔ ∃ body, ev i = NetEvent.resp 429 body := by
  unfold retriesAt eiaTryF eiaTry
  cases hev : ev i with
  | netRaise ex =>
    cases ex <;> simp [eiaHandler]
  | resp status body =>
    by_cases h429 : status = 429
    · subst h429
      simp
    · by_cases h400 : 400 ≤ status
      · simp [h429, h400, eiaHandler]
      · simp [h429, h400, eiaHandler]

lemma mem_insertLe {α : Type} (le : α → α → Bool) (x a : α) :
    ∀ l : List α, a ∈ insertLe le x l ↔ a = x ∨ a ∈ l := by
  intro l
  induction l with
  | nil => simp [insertLe]
  | cons y ys ih =>
    simp only [insertLe]
    by_cases h : le x y = true
    · simp [h]
    · simp only [h]
      simp only [Bool.false_eq_true, if_false, List.mem_cons, ih]
      tauto

lemma mem_sortLe {α : Type} (le : α → α → Bool) (a : α) :
    ∀ l : List α, a ∈ sortLe le l ↔ a ∈ l := by
  intro l
  induction l with
  | nil => simp [sortLe]
  | cons x xs ih =>
    simp only [sortLe, mem_insertLe, ih, List.mem_cons]

lemma fetchAllNoaa_total (ev : String → Nat → NetEvent (List NoaaRec)) :
    ∀ cities : List String, ∃ rows, fetchAllNoaa ev cities = Except.ok rows := by
  intro cities
  induction cities with
  | nil => exact ⟨[], rfl⟩
  | cons c cs ih =>
    rcases retryLoopE_total (noaaTryF c (ev c)) noaaHandler
      (by intro ex; cases ex <;> simp [noaaHandler]) 5 0 3 with ⟨r, hr⟩
    rcases ih with ⟨rest, hrest⟩
    refine ⟨r.rows ++ rest, ?_⟩
    simp only [fetchAllNoaa, fetchCityNoaa, hr, hrest]
    rfl

lemma fetchAllEia_total (ev : String → Nat → NetEvent (List EiaRec)) :
    ∀ cities : List String, ∃ rows, fetchAllEia ev cities = Except.ok rows := by
  intro cities
  induction cities with
  | nil => exact ⟨[], rfl⟩
  | cons c cs ih =>
    rcases retryLoopE_total (eiaTryF c (ev c)) eiaHandler
      (by intro ex; cases ex <;> simp [eiaHandler]) 5 0 1 with ⟨r, hr⟩
    rcases ih with ⟨rest, hrest⟩
    refine ⟨r.rows ++ rest, ?_⟩
    simp only [fetchAllEia, fetchCityEia, hr, hrest]
    rfl

lemma le_foldlMax : ∀ (ds : List ℤ) (d : ℤ), ∀ x ∈ d :: ds, x ≤ ds.foldl max d := by
  intro ds
  induction ds with
  | nil =>
    intro d x hx
    simp at hx
    simp [hx]
  | cons e ds ih =>
    intro d x hx
    simp only [List.foldl_cons]
    rcases List.mem_cons.1 hx with rfl | hx2
    · exact le_trans (le_max_left x e) (ih (max x e) (max x e) (List.mem_cons_self _ _))
    · rcases List.mem_cons.1 hx2 with rfl | hx3
      · exact le_trans (le_max_right d x) (ih (max d x) (max d x) (List.mem_cons_self _ _))
      · exact ih (max d e) x (List.mem_cons_of_mem _ hx3)

lemma foldlMax_mem : ∀ (ds : List ℤ) (d : ℤ), ds.foldl max d ∈ d :: ds := by
  intro ds
  induction ds with
  | nil => intro d; simp
  | cons e ds ih =>
    intro d
    simp only [List.foldl_cons]
    rcases List.mem_cons.1 (ih (max d e)) with h | h
    · rw [h]
      rcases max_choice d e with h2 | h2 <;> rw [h2]
      · exact List.mem_cons_self _ _
      · exact List.mem_cons_of_mem _ (List.mem_cons_self _ _)
    · exact List.mem_cons_of_mem _ (List.mem_cons_of_mem _ h)

lemma outlierField {α : Type} (p : α → Bool) (l : List α) :
    (if l.isEmpty then none
     else if (l.filter p).isEmpty then none else some (l.filter p).length) =
      (if l.countP p = 0 then none else some (l.countP p)) := by
  rw [List.countP_eq_length_filter]
  by_cases hl : l.isEmpty
  · rw [List.isEmpty_iff] at hl
    subst hl
    simp
  · by_cases hf : (l.filter p).isEmpty
    · rw [List.isEmpty_iff] at hf
      simp [hl, hf]
    · have hne : (l.filter p).length ≠ 0 := by
        rw [List.isEmpty_iff] at hf
        simpa [List.length_eq_zero] using hf
      simp [hl, hf, hne]

/-- C1: the merged output of the merger contains a row for a
(city, date) key if and only if that key appears in both the weather
table and the energy table handed to pd.merge (inner join on exact
(city, date) equality); and process_and_validate computes every
quality-report section on the pre-merge per-source tables (weather as
loaded, energy after aggregation), so records whose keys are excluded
from the merge are still counted there. -/
theorem C1_inner_join_membership :
    (∀ (w : List WRow) (e : List ERow) (c : String) (d : ℤ),
      (∃ m ∈ innerMerge w e, m.city = c ∧ m.date = d) ↔
        ((∃ wr ∈ w, wr.city = c ∧ wr.date = d) ∧
          (∃ er ∈ e, er.city = c ∧ er.date = d))) ∧
    (∀ (now : ℤ) (qp : QualityParams) (w : List WRow) (e0 : List ERow),
      (process_and_validate now qp w e0).1 =
        mkQualityReport now qp w (aggregateEnergy e0)) := by
  constructor
  · intro w e c d
    constructor
    · rintro ⟨m, hm, hc, hd⟩
      unfold innerMerge at hm
      rw [List.mem_bind] at hm
      rcases hm with ⟨wr, hwr, hm2⟩
      rw [List.mem_map] at hm2
      rcases hm2 with ⟨er, her, heq⟩
      rw [List.mem_filter] at her
      rcases her with ⟨her, hkey⟩
      have hkc : wr.city = er.city ∧ wr.date = er.date := by
        simpa using hkey
      have hmc : m.city = wr.city := by rw [← heq]
      have hmd : m.date = wr.date := by rw [← heq]
      constructor
      · exact ⟨wr, hwr, by rw [← hmc, hc], by rw [← hmd, hd]⟩
      · exact ⟨er, her, by rw [← hkc.1, ← hmc, hc], by rw [← hkc.2, ← hmd, hd]⟩
    · rintro ⟨⟨wr, hwr, hwc, hwd⟩, ⟨er, her, hec, hed⟩⟩
      refine ⟨⟨wr.city, wr.date, wr.temp_high_c, wr.temp_low_c,
        er.energy_consumption_mwh⟩, ?_, hwc, hwd⟩
      unfold innerMerge
      rw [List.mem_bind]
      refine ⟨wr, hwr, ?_⟩
      rw [List.mem_map]
      refine ⟨er, ?_, rfl⟩
      rw [List.mem_filter]
      refine ⟨her, ?_⟩
      simp [hwc, hwd, hec, hed]
  · intro now qp w e0
    simp only [process_and_validate]
    split
    · rfl
    · split
      · rfl
      · rfl

/-- C2 counterexample: in the energy client a call that times out on
its first attempt is not retried, even though the trace would succeed
on the third attempt: the fetch consumes exactly 1 attempt, sleeps
never, and returns no rows instead of the successful result with 3
attempts consumed. -/
theorem C2_counterexample :
    fetchCityEia "Boston" evC2bad = Except.ok ⟨[], 1, [], false⟩ ∧
    fetchCityEia "Boston" evC2bad ≠
      Except.ok ⟨[⟨"Boston", "2025-01-01", some 100⟩], 3, [1, 2], false⟩ := by
  constructor
  · rfl
  · decide

/-- C2 (amended): in the weather client a transient-network-class
failure (connection error, timeout, or HTTP 429) causes a wait of the
current delay and a retry with the delay doubled, up to 5 attempts, so
k transient failures followed by a success return the processed
records with k + 1 attempts consumed and sleeps 3, 6, 12, ...; in the
energy client only HTTP 429 triggers such a retry (initial delay 1),
while a connection error or timeout aborts the fetch of that city on the first attempt. -/
theorem C2_retry_backoff :
    (∀ (c : String) (ev : Nat → NetEvent (List NoaaRec)) (k s : Nat)
      (recs : List NoaaRec),
      k < 5 → (∀ i, i < k → transientNoaa (ev i)) →
      ev k = NetEvent.resp s recs → s < 400 →
      fetchCityNoaa c ev =
        Except.ok ⟨noaaProcess c recs, k + 1,
          (List.range k).map (fun i => (3 : ℚ) * 2 ^ i), false⟩) ∧
    (∀ (c : String) (ev : Nat → NetEvent (List EiaRec)) (k s : Nat)
      (recs : List EiaRec),
      k < 5 → (∀ i, i < k → ∃ body, ev i = NetEvent.resp 429 body) →
      ev k = NetEvent.resp s recs → s < 400 →
      fetchCityEia c ev =
        Except.ok ⟨eiaProcess c recs, k + 1,
          (List.range k).map (fun i => (1 : ℚ) * 2 ^ i), false⟩) ∧
    (∀ (c : String) (ev : Nat → NetEvent (List EiaRec)),
      (ev 0 = NetEvent.netRaise PyExn.timeout ∨
        ev 0 = NetEvent.netRaise PyExn.connError) →
      fetchCityEia c ev = Except.ok ⟨[], 1, [], false⟩) := by
  refine ⟨?_, ?_, ?_⟩
  · intro c ev k s recs hk hpre hev hs
    apply retryLoopE_success (noaaTryF c ev) noaaHandler k 5 3 (noaaProcess c recs) hk
    · intro i hi
      exact (retriesAt_noaa_iff c ev i).mpr (hpre i hi)
    · have h429 : ¬(s = 429) := by omega
      have h400 : ¬(400 ≤ s) := by omega
      simp [noaaTryF, noaaTry, hev, h429, h400]
  · intro c ev k s recs hk hpre hev hs
    apply retryLoopE_success (eiaTryF c ev) eiaHandler k 5 1 (eiaProcess c recs) hk
    · intro i hi
      exact (retriesAt_eia_iff c ev i).mpr (hpre i hi)
    · have h429 : ¬(s = 429) := by omega
      have h400 : ¬(400 ≤ s) := by omega
      simp [eiaTryF, eiaTry, hev, h429, h400]
  · intro c ev hev
    have hex : ∃ ex, eiaTryF c ev 0 = Except.error ex := by
      rcases hev with hev | hev
      · exact ⟨PyExn.timeout, by simp [eiaTryF, eiaTry, hev]⟩
      · exact ⟨PyExn.connError, by simp [eiaTryF, eiaTry, hev]⟩
    rcases hex with ⟨ex, hex⟩
    have h := retryLoopE_halt (eiaTryF c ev) eiaHandler 0 5 1 ex (by omega)
      (by intro i hi; omega) hex rfl
    simpa using h

/-- C2 witness: the weather client times out twice and succeeds on
the third attempt; the result is the successful record set with
exactly 3 attempts consumed and backoff sleeps 3 then 6. -/
theorem C2_witness :
    fetchCityNoaa "Chicago" evC2good =
      Except.ok ⟨[⟨"Chicago", "2025-01-05", "TMAX", 10⟩], 3, [3, 6], false⟩ := by
  have h := C2_retry_backoff.1 "Chicago" evC2good 2 200 recsC2 (by omega)
    (by intro i hi
        left
        simp [evC2good, hi])
    (by rfl) (by omega)
  rw [h]
  simp [noaaProcess, recsC2, List.range_succ]
  norm_num
  decide

/-- C3: neither per-city retry loop can let an exception escape (the
except chains cover every exception class, so the loop always returns
an ok result); budget exhaustion returns an explicit empty row set; a
non-empty row set can only come from an actual successful response;
and the whole-table fetch functions therefore also always return ok,
so the failure of one city leaves the rows of the other cities in place. -/
theorem C3_no_exception_escape :
    (∀ (c : String) (ev : Nat → NetEvent (List NoaaRec)),
      (∀ i, i < 5 → transientNoaa (ev i)) →
      fetchCityNoaa c ev =
        Except.ok ⟨[], 5, (List.range 5).map (fun i => (3 : ℚ) * 2 ^ i), true⟩) ∧
    (∀ (c : String) (ev : Nat → NetEvent (List EiaRec)),
      (∀ i, i < 5 → ∃ body, ev i = NetEvent.resp 429 body) →
      fetchCityEia c ev =
        Except.ok ⟨[], 5, (List.range 5).map (fun i => (1 : ℚ) * 2 ^ i), true⟩) ∧
    (∀ (c : String) (ev : Nat → NetEvent (List NoaaRec)) (fuel used : Nat) (b : ℚ),
      ∃ r, retryLoopE (noaaTryF c ev) noaaHandler fuel used b = Except.ok r) ∧
    (∀ (c : String) (ev : Nat → NetEvent (List EiaRec)) (fuel used : Nat) (b : ℚ),
      ∃ r, retryLoopE (eiaTryF c ev) eiaHandler fuel used b = Except.ok r) ∧
    (∀ (c : String) (ev : Nat → NetEvent (List NoaaRec)) (r : LoopRes FlatRow),
      fetchCityNoaa c ev = Except.ok r → r.rows ≠ [] →
      ∃ k, noaaTryF c ev k = Except.ok (TryOut.gotRecords r.rows)) ∧
    (∀ (c : String) (ev : Nat → NetEvent (List EiaRec)) (r : LoopRes EnergyRow),
      fetchCityEia c ev = Except.ok r → r.rows ≠ [] →
      ∃ k, eiaTryF c ev k = Except.ok (TryOut.gotRecords r.rows)) ∧
    (∀ (cities : List String) (ev : String → Nat → NetEvent (List NoaaRec)),
      ∃ df, fetch_noaa_weather cities ev = Except.ok df) ∧
    (∀ (cities : List String) (ev : String → Nat → NetEvent (List EiaRec)),
      ∃ df, fetch_eia_energy cities ev = Except.ok df) := by
  refine ⟨?_, ?_, ?_, ?_, ?_, ?_, ?_, ?_⟩
  · intro c ev hpre
    exact retryLoopE_exhaust (noaaTryF c ev) noaaHandler 5 3
      (fun i hi => (retriesAt_noaa_iff c ev i).mpr (hpre i hi))
  · intro c ev hpre
    exact retryLoopE_exhaust (eiaTryF c ev) eiaHandler 5 1
      (fun i hi => (retriesAt_eia_iff c ev i).mpr (hpre i hi))
  · intro c ev fuel used b
    exact retryLoopE_total (noaaTryF c ev) noaaHandler
      (by intro ex; cases ex <;> simp [noaaHandler]) fuel used b
  · intro c ev fuel used b
    exact retryLoopE_total (eiaTryF c ev) eiaHandler
      (by intro ex; cases ex <;> simp [eiaHandler]) fuel used b
  · intro c ev r hr hne
    exact retryLoopE_rows_success (noaaTryF c ev) noaaHandler 5 0 3 r hr hne
  · intro c ev r hr hne
    exact retryLoopE_rows_success (eiaTryF c ev) eiaHandler 5 0 1 r hr hne
  · intro cities ev
    rcases fetchAllNoaa_total ev cities with ⟨rows, hrows⟩
    exact ⟨weatherPivot rows, by rw [fetch_noaa_weather, hrows]; rfl⟩
  · intro cities ev
    exact fetchAllEia_total ev cities

/-- C3 witness: a weather-city call that times out on all 5 attempts
returns the explicit empty result (no rows, exhausted flag set) rather
than raising. -/
theorem C3_witness :
    fetchCityNoaa "Chicago" (fun _ => NetEvent.netRaise PyExn.timeout) =
      Except.ok ⟨[], 5, [3, 6, 12, 24, 48], true⟩ := by
  have h := C3_no_exception_escape.1 "Chicago"
    (fun _ => NetEvent.netRaise PyExn.timeout)
    (by intro i hi; left; rfl)
  rw [h]
  norm_num [List.range_succ]

/-- C10: in both source clients an HTTP error status other than 429
(including 5xx) raises HTTPError out of the try body and the except
chain breaks at once: the loop returns no rows after exactly k + 1
attempts, leaving the remaining budget unconsumed; and an attempt is
ever followed by another one only when its outcome was a connection
error, a timeout, or HTTP 429 in the weather client, respectively
HTTP 429 alone in the energy client. -/
theorem C10_nonretryable_http_aborts :
    (∀ (c : String) (ev : Nat → NetEvent (List NoaaRec)) (k s : Nat)
      (body : List NoaaRec),
      k < 5 → (∀ i, i < k → transientNoaa (ev i)) →
      ev k = NetEvent.resp s body → 400 ≤ s → s ≠ 429 →
      fetchCityNoaa c ev =
        Except.ok ⟨[], k + 1, (List.range k).map (fun i => (3 : ℚ) * 2 ^ i), false⟩) ∧
    (∀ (c : String) (ev : Nat → NetEvent (List EiaRec)) (k s : Nat)
      (body : List EiaRec),
      k < 5 → (∀ i, i < k → ∃ b2, ev i = NetEvent.resp 429 b2) →
      ev k = NetEvent.resp s body → 400 ≤ s → s ≠ 429 →
      fetchCityEia c ev =
        Except.ok ⟨[], k + 1, (List.range k).map (fun i => (1 : ℚ) * 2 ^ i), false⟩) ∧
    (∀ (c : String) (ev : Nat → NetEvent (List NoaaRec)) (r : LoopRes FlatRow) (i : Nat),
      fetchCityNoaa c ev = Except.ok r → i + 1 < r.attempts → transientNoaa (ev i)) ∧
    (∀ (c : String) (ev : Nat → NetEvent (List EiaRec)) (r : LoopRes EnergyRow) (i : Nat),
      fetchCityEia c ev = Except.ok r → i + 1 < r.attempts →
      ∃ body, ev i = NetEvent.resp 429 body) := by
  refine ⟨?_, ?_, ?_, ?_⟩
  · intro c ev k s body hk hpre hev h400 h429
    apply retryLoopE_halt (noaaTryF c ev) noaaHandler k 5 3 (PyExn.httpError s) hk
    · intro i hi
      exact (retriesAt_noaa_iff c ev i).mpr (hpre i hi)
    · simp [noaaTryF, noaaTry, hev, h429, h400]
    · rfl
  · intro c ev k s body hk hpre hev h400 h429
    apply retryLoopE_halt (eiaTryF c ev) eiaHandler k 5 1 (PyExn.httpError s) hk
    · intro i hi
      exact (retriesAt_eia_iff c ev i).mpr (hpre i hi)
    · simp [eiaTryF, eiaTry, hev, h429, h400]
    · rfl
  · intro c ev r i hr hlt
    exact (retriesAt_noaa_iff c ev i).mp
      (retryLoopE_retry_of_lt (noaaTryF c ev) noaaHandler 5 0 3 r hr i (Nat.zero_le i) hlt)
  · intro c ev r i hr hlt
    exact (retriesAt_eia_iff c ev i).mp
      (retryLoopE_retry_of_lt (eiaTryF c ev) eiaHandler 5 0 1 r hr i (Nat.zero_le i) hlt)

/-- C10 witness: a weather-city call that times out once and then
receives HTTP 500 stops immediately after the second attempt with no
rows, consuming none of the remaining three attempts. -/
theorem C10_witness :
    fetchCityNoaa "Chicago" evC10 = Except.ok ⟨[], 2, [3], false⟩ := by
  have h := C10_nonretryable_http_aborts.1 "Chicago" evC10 1 500 [] (by omega)
    (by intro i hi
        left
        have hi0 : i = 0 := by omega
        subst hi0
        rfl)
    rfl (by omega) (by omega)
  rw [h]
  norm_num [List.range_succ]

/-- C4 counterexample: a (city, date) with only a TMAX reading is not
dropped by the weather client: the normalized output of
fetch_noaa_weather contains a record for 2025-01-02 whose TMIN_F field
is missing. -/
theorem C4_counterexample :
    fetch_noaa_weather ["A"] evC4 =
      Except.ok [⟨"A", "2025-01-01", some 41, some (169 / 5)⟩,
        ⟨"A", "2025-01-02", some (187 / 5), none⟩] ∧
    (⟨"A", "2025-01-02", some (187 / 5), none⟩ : PivotRow).TMIN_F = none := by
  constructor
  · have h1 : fetchAllNoaa evC4 ["A"] = Except.ok (noaaProcess "A" recsC4) := by rfl
    rw [fetch_noaa_weather, h1]
    show Except.ok (weatherPivot (noaaProcess "A" recsC4)) = _
    have h2 : noaaProcess "A" recsC4 =
        [⟨"A", "2025-01-01", "TMAX", 50⟩, ⟨"A", "2025-01-01", "TMIN", 10⟩,
         ⟨"A", "2025-01-02", "TMAX", 30⟩] := by
      simp [noaaProcess, recsC4]
      norm_num
      decide
    rw [h2]
    simp [weatherPivot, sortLe, insertLe, wkeyLe, strLe, charListLe, firstVal,
      round2, halfEvenRound, Rat.floor, List.dedup, List.find?, List.filter]
    norm_num
  · rfl

/-- C4 (amended): the pivoted weather output has a record for exactly
the (city, date) keys carrying at least one TMAX/TMIN reading — a date
with only one of the two quantities is kept, with the other bound
missing; each output field is exactly the converted first reading of
its datatype when one exists and is missing otherwise, never
forward-filled or defaulted. -/
theorem C4_incomplete_dates_kept (flat : List FlatRow) :
    (∀ c d : String,
      (c, d) ∈ (weatherPivot flat).map (fun r => (r.city, r.date)) ↔
        ∃ fr ∈ flat, fr.city = c ∧ fr.date = d) ∧
    (∀ row ∈ weatherPivot flat,
      row.TMAX_F = (firstVal flat row.city row.date "TMAX").map
          (fun v => round2 (v * 0.18 + 32)) ∧
      row.TMIN_F = (firstVal flat row.city row.date "TMIN").map
          (fun v => round2 (v * 0.18 + 32))) := by
  constructor
  · intro c d
    unfold weatherPivot
    rw [List.map_map]
    constructor
    · intro hmem
      rw [List.mem_map] at hmem
      rcases hmem with ⟨⟨k1, k2⟩, hk, hkeq⟩
      rw [mem_sortLe, List.mem_dedup, List.mem_map] at hk
      rcases hk with ⟨fr, hfr, hfrk⟩
      have hc : k1 = c := congrArg Prod.fst hkeq
      have hd : k2 = d := congrArg Prod.snd hkeq
      have hfc : fr.city = k1 := congrArg Prod.fst hfrk
      have hfd : fr.date = k2 := congrArg Prod.snd hfrk
      exact ⟨fr, hfr, by rw [hfc, hc], by rw [hfd, hd]⟩
    · rintro ⟨fr, hfr, rfl, rfl⟩
      rw [List.mem_map]
      refine ⟨(fr.city, fr.date), ?_, rfl⟩
      rw [mem_sortLe, List.mem_dedup, List.mem_map]
      exact ⟨fr, hfr, rfl⟩
  · intro row hrow
    unfold weatherPivot at hrow
    rw [List.mem_map] at hrow
    rcases hrow with ⟨k, hk, rfl⟩
    exact ⟨rfl, rfl⟩

/-- C4 witness: the key (A, 2025-01-02), which has only a TMAX
reading in the flat data, appears in the pivoted output. -/
theorem C4_witness :
    ("A", "2025-01-02") ∈ (weatherPivot flatC4).map (fun r => (r.city, r.date)) :=
  ((C4_incomplete_dates_kept flatC4).1 "A" "2025-01-02").mpr
    ⟨⟨"A", "2025-01-02", "TMAX", 30⟩, by decide, rfl, rfl⟩

/-- C9 counterexample: an energy record with neither a value nor a
sales field is not excluded: the returned table contains a
(city, date) row whose consumption value is absent. -/
theorem C9_counterexample :
    fetch_eia_energy ["Boston"] evC9 =
      Except.ok [⟨"Boston", "2025-01-03", none⟩] ∧
    (⟨"Boston", "2025-01-03", none⟩ : EnergyRow).energy_usage = none := by
  constructor
  · decide
  · rfl

/-- C9 (amended): the energy client keeps every record of the
response, one output row per record; a record missing the value field
falls back to the sales field, and when both are absent the row is
emitted with a null consumption value — never excluded and never
defaulted to zero. -/
theorem C9_missing_value_rows_kept (c : String) (recs : List EiaRec) :
    (eiaProcess c recs).length = recs.length ∧
    ∀ r ∈ recs,
      (⟨c, r.period.take 10, r.value.orElse (fun _ => r.sales)⟩ : EnergyRow) ∈
        eiaProcess c recs ∧
      (r.value = none → r.sales = none →
        (⟨c, r.period.take 10, none⟩ : EnergyRow) ∈ eiaProcess c recs) := by
  constructor
  · simp [eiaProcess]
  · intro r hr
    constructor
    · unfold eiaProcess
      rw [List.mem_map]
      exact ⟨r, hr, rfl⟩
    · intro hv hs
      unfold eiaProcess
      rw [List.mem_map]
      refine ⟨r, hr, ?_⟩
      rw [hv, hs]
      rfl

/-- C9 witness: a record with both value and sales absent yields an
output row with a null consumption value. -/
theorem C9_witness :
    (⟨"Boston", "2025-01-03", none⟩ : EnergyRow) ∈
      eiaProcess "Boston" [⟨"2025-01-03", none, none⟩] :=
  ((C9_missing_value_rows_kept "Boston" [⟨"2025-01-03", none, none⟩]).2
    ⟨"2025-01-03", none, none⟩ (by decide)).2 rfl rfl

/-- C5: every row of the merged output of process_and_validate whose
high and low temperatures are both present carries
temp_avg_c = (high + low) / 2 exactly (in exact rational
arithmetic). -/
theorem C5_temp_avg_exact (now : ℤ) (qp : QualityParams) (w : List WRow)
    (e0 : List ERow) (rows : List MRowF) (m : MRowF) (h l : ℚ)
    (hrows : (process_and_validate now qp w e0).2 = some rows)
    (hm : m ∈ rows) (hh : m.temp_high_c = some h) (hl : m.temp_low_c = some l) :
    m.temp_avg_c = some ((h + l) / 2) := by
  simp only [process_and_validate] at hrows
  split at hrows
  · simp at hrows
  · split at hrows
    · simp at hrows
    · simp only [Option.some.injEq] at hrows
      subst hrows
      rcases List.mem_map.1 hm with ⟨m0, hm0, rfl⟩
      simp only [addTempAvg] at hh hl ⊢
      rw [hh, hl]

/-- C5 witness: merging one matching weather/energy row pair with
high 10 and low 4 yields temp_avg_c = (10 + 4) / 2. -/
theorem C5_witness : mC5.temp_avg_c = some ((10 + 4) / 2) := by
  apply C5_temp_avg_exact 0 defaultQualityParams wC5 eC5 [mC5] mC5 10 4
  · simp [process_and_validate, aggregateEnergy, normalizeDate, sortLe, insertLe,
      ekeyLe, strLe, charListLe, innerMerge, addTempAvg, wC5, eC5, mC5, List.dedup]
    norm_num
  · decide
  · rfl
  · rfl

/-- C6: for a non-empty table the freshness check reports the maximum
date of the table as latest, days_since_latest_date as the whole
(floor) number of days from that maximum to now (UTC epoch seconds),
and is_stale exactly when that count exceeds the threshold (default
3); in particular with now = 2025-01-10 and latest record date
2025-01-05 it reports 5 days and stale. -/
theorem C6_freshness :
    (∀ (now d0 : ℤ) (ds : List ℤ),
      ∃ m, (m ∈ d0 :: ds ∧ ∀ x ∈ d0 :: ds, x ≤ m) ∧
        check_data_freshness now (d0 :: ds) 3 =
          FreshSummary.ok m ((now - m).fdiv 86400)
            (decide (3 < (now - m).fdiv 86400))) ∧
    check_data_freshness 1736467200 [1736035200] 3 =
      FreshSummary.ok 1736035200 5 true := by
  constructor
  · intro now d0 ds
    exact ⟨ds.foldl max d0, ⟨foldlMax_mem ds d0, le_foldlMax ds d0⟩, rfl⟩
  · decide

/-- C6 witness: the concrete instance given in the claim, derived from the
theorem: now 2025-01-10, latest 2025-01-05, 5 whole days, stale. -/
theorem C6_witness :
    check_data_freshness 1736467200 [1736035200] 3 =
      FreshSummary.ok 1736035200 5 true :=
  C6_freshness.2

/-- C7 counterexample: the outlier check tests only the high bound
against the maximum and only the low bound against the minimum, so a
weather record whose high bound is missing and whose low temperature
is 60 (outside the default [-45, 55] range, and flagged by the
spec-side predicate) is counted by no outlier key at all — the check
does not flag exactly the records whose temperature lies outside the
range. -/
theorem C7_counterexample :
    specTempOutlier defaultQualityParams wrC7bad = true ∧
    tempOutlierRow defaultQualityParams wrC7bad = false ∧
    check_outliers defaultQualityParams [wrC7bad] eC7 =
      ⟨none, some 1⟩ := by
  refine ⟨by decide, by decide, by decide⟩

/-- C7 (amended): the outlier check counts exactly the weather
records whose high temperature exceeds the configured maximum or
whose low temperature falls below the configured minimum (defaults
55 and -45; a missing bound never triggers its test, as NaN
comparisons are false), and exactly the energy records whose
consumption is below the configured minimum (default 0); a summary
key is present exactly when its count is positive; on records with
both bounds present and low <= high this one-sided test coincides
with "some temperature outside [temp_min, temp_max]" (so a 60 degree
record with both bounds is flagged and a 40 degree one is not); and a
flagged weather record whose key also occurs in the energy table
still contributes its row to the merge — outliers are reported,
never removed. -/
theorem C7_outlier_flagging (qp : QualityParams) (w : List WRow) (e : List ERow) :
    check_outliers qp w e =
      ⟨if w.countP (tempOutlierRow qp) = 0 then none
        else some (w.countP (tempOutlierRow qp)),
       if e.countP (energyOutlierRow qp) = 0 then none
        else some (e.countP (energyOutlierRow qp))⟩ ∧
    (∀ r ∈ w, (∃ h l, r.temp_high_c = some h ∧ r.temp_low_c = some l ∧ l ≤ h) →
      tempOutlierRow qp r = specTempOutlier qp r) ∧
    (∀ wr ∈ w, tempOutlierRow qp wr = true → ∀ er ∈ e,
      wr.city = er.city → wr.date = er.date →
      (⟨wr.city, wr.date, wr.temp_high_c, wr.temp_low_c,
        er.energy_consumption_mwh⟩ : MRow) ∈ innerMerge w e) := by
  refine ⟨?_, ?_, ?_⟩
  · unfold check_outliers
    congr 1
    · exact outlierField (tempOutlierRow qp) w
    · exact outlierField (energyOutlierRow qp) e
  · rintro r _ ⟨hv, lv, hh, hl, hle⟩
    simp only [tempOutlierRow, specTempOutlier, hh, hl, Option.any_some]
    apply Bool.eq_iff_iff.mpr
    simp only [Bool.or_eq_true, decide_eq_true_eq]
    constructor
    · rintro (h1 | h2)
      · exact Or.inl (Or.inr h1)
      · exact Or.inr (Or.inl h2)
    · rintro ((h1 | h2) | (h3 | h4))
      · exact Or.inr (lt_of_le_of_lt hle h1)
      · exact Or.inl h2
      · exact Or.inr h3
      · exact Or.inl (lt_of_lt_of_le h4 hle)
  · intro wr hwr hflag er her hc hd
    unfold innerMerge
    rw [List.mem_bind]
    refine ⟨wr, hwr, ?_⟩
    rw [List.mem_map]
    refine ⟨er, ?_, rfl⟩
    rw [List.mem_filter]
    exact ⟨her, by simp [hc, hd]⟩

/-- C7 witness: with the default thresholds, a 60 degree record
(both bounds present) is flagged and a 40 degree record is not (one
temperature outlier), a negative consumption record is flagged, the
one-sided test agrees with the spec-side predicate on these
well-formed rows, and the flagged 60 degree record still appears in
the merged rows. -/
theorem C7_witness :
    check_outliers defaultQualityParams wC7 eC7 = ⟨some 1, some 1⟩ ∧
    tempOutlierRow defaultQualityParams ⟨"A", 0, some 60, some 20⟩ =
      specTempOutlier defaultQualityParams ⟨"A", 0, some 60, some 20⟩ ∧
    (⟨"A", 0, some 60, some 20, some (-5)⟩ : MRow) ∈ innerMerge wC7 eC7 := by
  have h := C7_outlier_flagging defaultQualityParams wC7 eC7
  refine ⟨h.1.trans (by decide), ?_, ?_⟩
  · exact h.2.1 ⟨"A", 0, some 60, some 20⟩ (by decide)
      ⟨60, 20, rfl, rfl, by norm_num⟩
  · exact h.2.2 ⟨"A", 0, some 60, some 20⟩ (by decide) (by decide)
      ⟨"A", 0, some (-5)⟩ (by decide) rfl rfl

/-- C8 counterexample: the merged output is not sorted by city then
date and is not invariant as a sequence under shuffling the inputs:
permuting the two weather rows permutes the two merged rows. -/
theorem C8_counterexample :
    List.Perm [wrB, wrA] [wrA, wrB] ∧
    innerMerge [wrB, wrA] [erA, erB] ≠ innerMerge [wrA, wrB] [erA, erB] :=
  ⟨List.Perm.swap wrA wrB [], by decide⟩

/-- C8 (amended): the merged output is a deterministic pure function
of the input tables whose row order follows the row order of the weather (left) input — the rows for the first weather row come first — and no
sort by city/date is applied; consequently merging shuffled copies of
both inputs yields the same rows up to permutation (the same multiset),
though not necessarily the identical sequence. -/
theorem C8_merge_order :
    (∀ (w1 w2 : List WRow) (e1 e2 : List ERow),
      List.Perm w1 w2 → List.Perm e1 e2 →
      List.Perm (innerMerge w1 e1) (innerMerge w2 e2)) ∧
    (∀ (wr : WRow) (w : List WRow) (e : List ERow),
      innerMerge (wr :: w) e =
        ((e.filter (fun er => wr.city == er.city && wr.date == er.date)).map
          (fun er => ⟨wr.city, wr.date, wr.temp_high_c, wr.temp_low_c,
            er.energy_consumption_mwh⟩)) ++ innerMerge w e) := by
  constructor
  · intro w1 w2 e1 e2 hw he
    unfold innerMerge
    refine List.Perm.trans (hw.bind_right _) (List.Perm.bind_left w2 ?_)
    intro wr _
    exact (he.filter _).map _
  · intro wr w e
    rfl

/-- C8 witness: merging shuffled copies of both concrete inputs
yields a permutation of the original merged rows. -/
theorem C8_witness :
    List.Perm (innerMerge [wrB, wrA] [erA, erB]) (innerMerge [wrA, wrB] [erB, erA]) :=
  C8_merge_order.1 _ _ _ _ (List.Perm.swap wrA wrB []) (List.Perm.swap erB erA [])

/-- C1 witness: on a concrete run, the quality report returned by
process_and_validate is exactly the one computed from the pre-merge
per-source tables. -/
theorem C1_witness :
    (process_and_validate 0 defaultQualityParams wC5 eC5).1 =
      mkQualityReport 0 defaultQualityParams wC5 (aggregateEnergy eC5) :=
  C1_inner_join_membership.2 0 defaultQualityParams wC5 eC5
